import Mathlib

/-!
Verification of the Troubadour hardware-qualification wizard.

The repository contains three variants of the same program:
  * a Fyne GUI variant            (src/main.go, lines 1-1539),
  * a bubbletea TUI variant       (src/main.go, lines 1540-3076),
  * two further TUI variants      (src/unnamed/part_000, src/unnamed/part_001).

This file shallowly embeds the wizard state machine of the bubbletea TUI
variant of src/main.go (the `model` struct, its `Update` function and the
commands it issues), together with the pure pieces of the other variants
that the claims reference: the serial check `checkSN` closure of the Fyne
variant and the `videoTestTimerTickMsg` handler of part_000.

Presentation-only fields of the Go `model` (width, height, showOverlay,
overlayContent, spinner, viewport) are omitted: no transition reads them to
decide the next state.  Wall-clock time is passed into timer-tick events as
the truncated elapsed-seconds value that the Go code computes with
`int(time.Since(m.videoTestStart).Seconds())`.
-/

namespace Troubadour

/-! ### Fyne variant: the checkSN closure (src/main.go 1227-1287)

`checkSN` stores the entered serial into `sysInfo.TestResults.UserEnteredSN`,
compares it with `sysInfo.SerialNumber`, and in BOTH branches calls
`createLogFile()` (the mismatch dialog even announces that the mismatch will
be recorded in the logs). -/

structure FyneCheckOutcome where
  userEnteredSN : String
  serialNumberVerified : Bool
  logFileWritten : Bool
  deriving DecidableEq

def checkSN (userSN systemSN : String) : FyneCheckOutcome :=
  if userSN = systemSN then
    { userEnteredSN := userSN, serialNumberVerified := true, logFileWritten := true }
  else
    { userEnteredSN := userSN, serialNumberVerified := false, logFileWritten := true }

/-! ### part_000 variant: videoTestTimerTickMsg handler (src/unnamed/part_000 880-899)

With the test active, `elapsedSeconds >= 8` ends the test (videoTestActive
is cleared and the state becomes stateAskVideoOk without any key press);
otherwise the color is `(elapsedSeconds / 2) % 4`. -/

inductive GState where
  | init | showInfo | videoTest | askVideoOk | askSerial | checkSerial
  | serialSuccess | serialError | createLogs | done
  deriving DecidableEq

structure Tick000Result where
  videoTestActive : Bool
  videoTestColor : Nat
  state : GState
  deriving DecidableEq

def videoTick000 (color elapsed : Nat) (st : GState) : Tick000Result :=
  if 8 ≤ elapsed then
    { videoTestActive := false, videoTestColor := color, state := GState.askVideoOk }
  else
    { videoTestActive := true, videoTestColor := (elapsed / 2) % 4, state := st }

/-! ### main.go TUI variant: videoTestTimerTickMsg handler (src/main.go 2503-2531)

With the test active, color 3 (the SMPTE table) is kept forever; otherwise
`elapsedSeconds >= 6` switches to color 3, and below 6 the color is
`(elapsedSeconds / 2) % 3`. -/

def videoTickMain (color elapsed : Nat) : Nat :=
  if color = 3 then 3
  else if 6 ≤ elapsed then 3
  else (elapsed / 2) % 3

/-! ### main.go TUI variant: data model -/

/-- The inventory snapshot (`SystemInfo`, src/main.go 1540-1547).  The Go
struct carries several summary sub-records; only the serial number is read
by any transition, the rest is carried opaquely so that record identity in
the emitted log can be stated. -/
structure SystemInfo where
  processorModel : String := ""
  memoryTotal : String := ""
  gpuModel : String := ""
  serialNumber : String := ""
  deriving DecidableEq

/-- Result of `checkSerialNumberCmd` (src/main.go 2253-2261). -/
inductive SerialCheckMsg where
  | matched
  | mismatch (entered system : String)
  deriving DecidableEq

/-- `checkSerialNumberCmd` (src/main.go 2253-2261): `entered == system`
decides match or mismatch, nothing else. -/
def checkSerialNumberCmd (entered system : String) : SerialCheckMsg :=
  if entered = system then SerialCheckMsg.matched
  else SerialCheckMsg.mismatch entered system

/-- Arguments of `createLogFilesCmd` (src/main.go 2276). -/
structure LogParams where
  info : SystemInfo
  dmidecodeRaw : String
  testPassed : Bool
  serialMatched : Bool
  deriving DecidableEq

/-- The fields written by `createLogFilesCmd` into the log file
(src/main.go 2285-2369), keeping the data of the header, the TEST RESULTS
section and the raw dmidecode section. -/
structure LogRecord where
  date : String
  serialNumber : String
  systemInfo : SystemInfo
  videoTestPassed : Bool
  serialNumberCheck : Bool
  enteredSerialNumber : String
  systemSerialNumber : String
  rawDmidecode : String
  deriving DecidableEq

/-- Content of the log built by `createLogFilesCmd`.  Note that the
source prints `info.SerialNumber` on BOTH the `Entered Serial Number:` line
(src/main.go 2364) and the `System Serial Number:` line (2365); the entered
serial is not a parameter of the function. -/
def logRecordOf (p : LogParams) (timestamp : String) : LogRecord :=
  { date := timestamp
    serialNumber := p.info.serialNumber
    systemInfo := p.info
    videoTestPassed := p.testPassed
    serialNumberCheck := p.serialMatched
    enteredSerialNumber := p.info.serialNumber
    systemSerialNumber := p.info.serialNumber
    rawDmidecode := p.dmidecodeRaw }

/-- Log file name built by `createLogFilesCmd` (src/main.go 2286). -/
def logFileNameOf (p : LogParams) (timestamp : String) : String :=
  "./troubadour_logs/troubadour_" ++ p.info.serialNumber ++ "_" ++ timestamp ++ ".log"

/-- The OS power commands issued from stateSerialError
(src/main.go 2462-2478).  `waitsForExit = true` records that the Go code
calls `exec.Cmd.Run`, which starts the command and then waits for it to
complete, as opposed to `Start`, which does not wait. -/
inductive PowerKind where
  | reboot | poweroff
  deriving DecidableEq

structure PowerCmd where
  kind : PowerKind
  waitsForExit : Bool
  deriving DecidableEq

/-- `exec.Command("reboot").Run()` (src/main.go 2466). -/
def rebootCommand : PowerCmd := { kind := PowerKind.reboot, waitsForExit := true }

/-- `exec.Command("poweroff").Run()` (src/main.go 2475). -/
def poweroffCommand : PowerCmd := { kind := PowerKind.poweroff, waitsForExit := true }

/-- Keyboard input as bubbletea delivers it to `Update`: ctrl+c, enter, or a
typed character `c` (for which `msg.String()` is the one-character string). -/
inductive Key where
  | ctrlC | enter | char (c : Char)
  deriving DecidableEq

/-- Events processed by the wizard event loop: operator keys, timer ticks
(carrying the truncated elapsed seconds of the running video test), and the
completion messages of the detached commands.  Completion events are only
deliverable while the corresponding command is outstanding. -/
inductive Ev where
  | key (k : Key)
  | collectOk (info : SystemInfo) (raw : String)
  | collectErr (e : String)
  | tick (elapsed : Nat)
  | checkDone
  | logOk (path : String)
  | logErr (e : String)
  | powerDone
  deriving DecidableEq

/-- The wizard session: the fields of the Go `model` struct
(src/main.go 1594-1613) that transitions read or write, the outstanding
detached commands, and two ghost fields used only to state properties
(`logsIssued` counts invocations of `createLogFilesCmd`, `mismatchEver`
records whether a mismatch was ever reported in the session). -/
structure World where
  state : GState := GState.init
  sysInfo : SystemInfo := {}
  textValue : String := ""
  userSerial : String := ""
  dmidecodeRaw : String := ""
  logFilePath : Option String := none
  videoTestActive : Bool := false
  videoTestColor : Nat := 0
  testPassed : Bool := false
  serialMatched : Bool := false
  err : Option String := none
  quit : Bool := false
  pendingCollect : Bool := true
  pendingCheck : Option (String × String) := none
  pendingLog : Option LogParams := none
  pendingPower : Option PowerCmd := none
  logsIssued : Nat := 0
  mismatchEver : Bool := false
  deriving DecidableEq

/-- The session at program start: `initialModel` (src/main.go 1629-1650)
with `Init` having issued `collectSystemInfoCmd` (src/main.go 1652-1659). -/
def initWorld : World := {}

/-- Dismissal of the held SMPTE pattern by any key (src/main.go 2396-2401). -/
def dismissHeld (w : World) : World :=
  { w with videoTestActive := false, state := GState.askVideoOk }

/-- The `case "enter"` state dispatch (src/main.go 2407-2449). -/
def stepEnter (w : World) : World :=
  match w.state with
  | GState.showInfo =>
      { w with state := GState.videoTest, videoTestActive := true, videoTestColor := 0 }
  | GState.askVideoOk =>
      { w with state := GState.askSerial, testPassed := true }
  | GState.askSerial =>
      { w with state := GState.checkSerial, userSerial := w.textValue,
               pendingCheck := some (w.textValue, w.sysInfo.serialNumber) }
  | GState.serialSuccess =>
      { w with state := GState.createLogs,
               pendingLog := some { info := w.sysInfo, dmidecodeRaw := w.dmidecodeRaw,
                                    testPassed := w.testPassed, serialMatched := true },
               logsIssued := w.logsIssued + 1 }
  | GState.serialError =>
      { w with state := GState.askSerial, textValue := "" }
  | GState.done => { w with quit := true }
  | _ => w

/-- Handling of a typed character: `"q"` quits (src/main.go 2404), `"n"`,
`"r"`, `"e"` act only in their states (2451-2478), anything else falls
through to the text input, fed only in stateAskSerial (2560-2569). -/
def stepChar (w : World) (c : Char) : World :=
  if c = 'q' then { w with quit := true }
  else if c = 'n' ∧ w.state = GState.askVideoOk then
    { w with state := GState.videoTest, videoTestActive := true, videoTestColor := 0,
             testPassed := false }
  else if c = 'r' ∧ w.state = GState.serialError then
    { w with pendingPower := some rebootCommand }
  else if c = 'e' ∧ w.state = GState.serialError then
    { w with pendingPower := some poweroffCommand }
  else if w.state = GState.askSerial then
    { w with textValue := w.textValue.push c }
  else w

def stepKeyCore (w : World) : Key → World
  | Key.ctrlC => { w with quit := true }
  | Key.enter => stepEnter w
  | Key.char c => stepChar w c

/-- The `tea.KeyMsg` case of `Update` (src/main.go 2394-2479): the held
final test pattern consumes ANY key first (2396-2401); otherwise the key is
dispatched through the `msg.String()` switch. -/
def stepKey (w : World) (k : Key) : World :=
  if w.videoTestActive = true ∧ w.videoTestColor = 3 then dismissHeld w
  else stepKeyCore w k

/-- One step of the event loop: `Update` (src/main.go 2390-2572).  `none`
means the event cannot occur (a completion message without an outstanding
command, or any event after the program has quit). -/
def step (w : World) (e : Ev) : Option World :=
  if w.quit = true then none
  else
    match e with
    | Ev.key k => some (stepKey w k)
    | Ev.collectOk info raw =>
        if w.pendingCollect = true then
          some { w with sysInfo := info, dmidecodeRaw := raw,
                        state := GState.showInfo, pendingCollect := false }
        else none
    | Ev.collectErr msg =>
        if w.pendingCollect = true then
          some { w with err := some msg, quit := true, pendingCollect := false }
        else none
    | Ev.tick elapsed =>
        if w.videoTestActive = true then
          some { w with videoTestColor := videoTickMain w.videoTestColor elapsed }
        else some w
    | Ev.checkDone =>
        match w.pendingCheck with
        | none => none
        | some (en, sys) =>
          match checkSerialNumberCmd en sys with
          | SerialCheckMsg.matched =>
              some { w with state := GState.serialSuccess, serialMatched := true,
                            pendingCheck := none }
          | SerialCheckMsg.mismatch e _ =>
              some { w with state := GState.serialError, userSerial := e,
                            serialMatched := false, pendingCheck := none,
                            mismatchEver := true }
    | Ev.logOk path =>
        if w.pendingLog.isSome then
          some { w with state := GState.done, logFilePath := some path, pendingLog := none }
        else none
    | Ev.logErr msg =>
        if w.pendingLog.isSome then
          some { w with err := some msg, quit := true, pendingLog := none }
        else none
    | Ev.powerDone =>
        if w.pendingPower.isSome then some { w with pendingPower := none }
        else none

/-- `main` of the TUI variant (src/main.go 2976-3000): exit code 1 when not
run as root or when `tea.Program.Run` reports an error, 0 otherwise. -/
def tuiMainExitCode (euidIsRoot : Bool) (runFailed : Bool) : Nat :=
  if euidIsRoot = false then 1
  else if runFailed = true then 1
  else 0

/-- `tea.Program.Run` returns a nil error whenever the event loop ends via
`tea.Quit` - including the `errMsg` case of `Update` (src/main.go
2487-2489), which stores the error in the model and quits; `main` never
inspects the final model. -/
def runFailedAfterQuit : Bool := false

/-- Exit code of a session that ended through the event loop. -/
def exitCodeOfQuitSession (euidIsRoot : Bool) : Nat :=
  tuiMainExitCode euidIsRoot runFailedAfterQuit

/-- Run a list of events from a world. -/
def runEvs : World → List Ev → Option World
  | w, [] => some w
  | w, e :: l =>
    match step w e with
    | none => none
    | some w2 => runEvs w2 l

/-- One step of the event loop relates two worlds. -/
def StepRel (a b : World) : Prop := ∃ e, step a e = some b

/-- Multi-step reachability between worlds. -/
def Reaches (a b : World) : Prop := Relation.ReflTransGen StepRel a b

/-- Worlds reachable from program start. -/
def Reachable (w : World) : Prop := Reaches initWorld w

/-! ### Session invariant -/

/-- Invariant of every reachable session of the main.go TUI wizard. -/
structure Inv (w : World) : Prop where
  logs_le : w.logsIssued ≤ 1
  logs_iff : w.logsIssued = 1 ↔ (w.state = GState.createLogs ∨ w.state = GState.done)
  check_inv : ∀ en sys, w.pendingCheck = some (en, sys) →
    w.state = GState.checkSerial ∧ en = w.userSerial ∧ sys = w.sysInfo.serialNumber
  log_inv : ∀ p, w.pendingLog = some p →
    w.state = GState.createLogs ∧ p.info = w.sysInfo ∧ p.dmidecodeRaw = w.dmidecodeRaw ∧
    p.testPassed = w.testPassed ∧ p.serialMatched = true
  success_inv : w.state = GState.serialSuccess →
    w.userSerial = w.sysInfo.serialNumber ∧ w.serialMatched = true
  created_inv : w.state = GState.createLogs ∨ w.state = GState.done →
    w.userSerial = w.sysInfo.serialNumber ∧ w.serialMatched = true
  matched_states : w.serialMatched = true →
    w.state = GState.serialSuccess ∨ w.state = GState.createLogs ∨ w.state = GState.done
  active_iff : w.videoTestActive = true ↔ w.state = GState.videoTest
  text_q : 'q' ∉ w.textValue.data
  user_q : 'q' ∉ w.userSerial.data
  collect_inv : w.pendingCollect = true → w.state = GState.init ∧ w.logsIssued = 0

theorem inv_init : Inv initWorld := by
  constructor <;> simp [initWorld]

set_option maxHeartbeats 1000000 in
theorem inv_step {w w' : World} {e : Ev} (hi : Inv w) (hs : step w e = some w') : Inv w' := by
  obtain ⟨h1, h2, h3, h4, h5, h6, h7, h8, h9, h10, h11⟩ := hi
  unfold step at hs
  by_cases hq : w.quit = true
  · simp [hq] at hs
  · simp only [hq, if_false, Bool.false_eq_true] at hs
    cases e with
    | key k =>
      simp only [Option.some.injEq] at hs
      subst hs
      unfold stepKey
      by_cases hheld : w.videoTestActive = true ∧ w.videoTestColor = 3
      · -- any key dismisses the held pattern
        have hst : w.state = GState.videoTest := h8.mp hheld.1
        simp only [hheld, if_true]
        constructor <;> intros <;> (try subst_vars) <;> (try simp_all [dismissHeld]) <;> (try solve_by_elim)
      · simp only [hheld, if_false]
        cases k with
        | ctrlC =>
          simp only [stepKeyCore]
          constructor <;> intros <;> (try subst_vars) <;> (try simp_all) <;> (try solve_by_elim)
        | enter =>
          simp only [stepKeyCore]
          unfold stepEnter
          cases hstate : w.state with
          | showInfo =>
            simp only [hstate]
            constructor <;> intros <;> (try subst_vars) <;> (try simp_all) <;> (try solve_by_elim)
          | askVideoOk =>
            simp only [hstate]
            constructor <;> intros <;> (try subst_vars) <;> (try simp_all) <;> (try solve_by_elim)
          | askSerial =>
            simp only [hstate]
            constructor <;> intros <;> (try subst_vars) <;> (try simp_all) <;> (try solve_by_elim)
          | serialSuccess =>
            have h5x := h5 hstate
            have hl0 : w.logsIssued = 0 := by
              rcases Nat.lt_or_ge w.logsIssued 1 with h | h
              · omega
              · exfalso
                have hone : w.logsIssued = 1 := by omega
                rcases h2.mp hone with h | h <;> simp [h] at hstate
            simp only [hstate]
            constructor <;> intros <;> (try subst_vars) <;> (try simp_all) <;> (try solve_by_elim)
              <;> (try (rename_i hpe; cases hpe; simp))
          | serialError =>
            simp only [hstate]
            constructor <;> intros <;> (try subst_vars) <;> (try simp_all) <;> (try solve_by_elim)
          | done =>
            simp only [hstate]
            constructor <;> intros <;> (try subst_vars) <;> (try simp_all) <;> (try solve_by_elim)
          | init =>
            simp only [hstate]
            constructor <;> intros <;> (try subst_vars) <;> (try simp_all) <;> (try solve_by_elim)
          | videoTest =>
            simp only [hstate]
            constructor <;> intros <;> (try subst_vars) <;> (try simp_all) <;> (try solve_by_elim)
          | checkSerial =>
            simp only [hstate]
            constructor <;> intros <;> (try subst_vars) <;> (try simp_all) <;> (try solve_by_elim)
          | createLogs =>
            simp only [hstate]
            constructor <;> intros <;> (try subst_vars) <;> (try simp_all) <;> (try solve_by_elim)
        | char c =>
          simp only [stepKeyCore]
          unfold stepChar
          by_cases hcq : c = 'q'
          · simp only [hcq, if_true]
            constructor <;> intros <;> (try subst_vars) <;> (try simp_all) <;> (try solve_by_elim)
          · simp only [hcq, if_false]
            by_cases hcn : c = 'n' ∧ w.state = GState.askVideoOk
            · simp only [hcn, if_true]
              constructor <;> intros <;> (try subst_vars) <;> (try simp_all) <;> (try solve_by_elim)
            · simp only [hcn, if_false]
              by_cases hcr : c = 'r' ∧ w.state = GState.serialError
              · simp only [hcr, if_true]
                constructor <;> intros <;> (try subst_vars) <;> (try simp_all) <;> (try solve_by_elim)
              · simp only [hcr, if_false]
                by_cases hce : c = 'e' ∧ w.state = GState.serialError
                · simp only [hce, if_true]
                  constructor <;> intros <;> (try subst_vars) <;> (try simp_all) <;> (try solve_by_elim)
                · simp only [hce, if_false]
                  by_cases has : w.state = GState.askSerial
                  · simp only [has, if_true]
                    have hpush : (w.textValue.push c).data = w.textValue.data ++ [c] := rfl
                    constructor <;> intros <;> (try subst_vars) <;> (try simp_all) <;> (try solve_by_elim)
                  · simp only [has, if_false]
                    exact ⟨h1, h2, h3, h4, h5, h6, h7, h8, h9, h10, h11⟩
    | collectOk info raw =>
      by_cases hp : w.pendingCollect = true
      · have hcol := h11 hp
        simp only [hp, if_true, Option.some.injEq] at hs
        subst hs
        constructor <;> intros <;> (try subst_vars) <;> (try simp_all) <;> (try solve_by_elim)
      · simp [hp] at hs
    | collectErr msg =>
      by_cases hp : w.pendingCollect = true
      · have hcol := h11 hp
        simp only [hp, if_true, Option.some.injEq] at hs
        subst hs
        constructor <;> intros <;> (try subst_vars) <;> (try simp_all) <;> (try solve_by_elim)
      · simp [hp] at hs
    | tick elapsed =>
      by_cases ha : w.videoTestActive = true
      · have hst : w.state = GState.videoTest := h8.mp ha
        simp only [ha, if_true, Option.some.injEq] at hs
        subst hs
        constructor <;> intros <;> (try subst_vars) <;> (try simp_all) <;> (try solve_by_elim)
      · simp only [ha, if_false, Bool.false_eq_true, Option.some.injEq] at hs
        subst hs
        exact ⟨h1, h2, h3, h4, h5, h6, h7, h8, h9, h10, h11⟩
    | checkDone =>
      cases hpc : w.pendingCheck with
      | none => simp [hpc] at hs
      | some pr =>
        obtain ⟨en, sys⟩ := pr
        obtain ⟨hstC, henU, hsysS⟩ := h3 en sys hpc
        subst henU
        subst hsysS
        simp only [hpc] at hs
        unfold checkSerialNumberCmd at hs
        by_cases heq : w.userSerial = w.sysInfo.serialNumber
        · rw [if_pos heq] at hs
          simp only [Option.some.injEq] at hs
          subst hs
          clear h3 hpc h5 h6 h7
          constructor <;> intros <;> (try subst_vars) <;> (try simp_all) <;> (try solve_by_elim)
        · rw [if_neg heq] at hs
          simp only [Option.some.injEq] at hs
          subst hs
          clear h3 hpc h5 h6 h7
          constructor <;> intros <;> (try subst_vars) <;> (try simp_all) <;> (try solve_by_elim)
    | logOk path =>
      cases hpl : w.pendingLog with
      | none => simp [hpl] at hs
      | some p =>
        have hlg := h4 p hpl
        simp only [hpl, Option.isSome_some, if_true, Option.some.injEq] at hs
        subst hs
        constructor <;> intros <;> (try subst_vars) <;> (try simp_all) <;> (try solve_by_elim)
    | logErr msg =>
      cases hpl : w.pendingLog with
      | none => simp [hpl] at hs
      | some p =>
        have hlg := h4 p hpl
        simp only [hpl, Option.isSome_some, if_true, Option.some.injEq] at hs
        subst hs
        constructor <;> intros <;> (try subst_vars) <;> (try simp_all) <;> (try solve_by_elim)
    | powerDone =>
      by_cases hpp : w.pendingPower.isSome
      · simp only [hpp, if_true, Option.some.injEq] at hs
        subst hs
        constructor <;> intros <;> (try subst_vars) <;> (try simp_all) <;> (try solve_by_elim)
      · simp [hpp] at hs

theorem inv_reachable {w : World} (h : Reachable w) : Inv w := by
  induction h with
  | refl => exact inv_init
  | tail _ hstep ih =>
    obtain ⟨e, he⟩ := hstep
    exact inv_step ih he

theorem reaches_of_runEvs :
    ∀ (l : List Ev) (a b : World), runEvs a l = some b → Reaches a b := by
  intro l
  induction l with
  | nil =>
    intro a b h
    simp only [runEvs, Option.some.injEq] at h
    subst h
    exact Relation.ReflTransGen.refl
  | cons e l ih =>
    intro a b h
    unfold runEvs at h
    cases hs : step a e with
    | none => rw [hs] at h; cases h
    | some a2 =>
      rw [hs] at h
      exact Relation.ReflTransGen.head ⟨e, hs⟩ (ih a2 b h)

/-- A transition raises the ghost log counter only on the enter keypress in
stateSerialSuccess, which moves the session into stateCreateLogs. -/
theorem log_increment_analysis {w w' : World} {e : Ev} (hs : step w e = some w')
    (hlt : w.logsIssued < w'.logsIssued) :
    w.state = GState.serialSuccess ∧ e = Ev.key Key.enter ∧ w'.state = GState.createLogs := by
  unfold step at hs
  by_cases hq : w.quit = true
  · simp [hq] at hs
  · simp only [hq, if_false, Bool.false_eq_true] at hs
    cases e with
    | key k =>
      simp only [Option.some.injEq] at hs
      subst hs
      unfold stepKey at hlt ⊢
      by_cases hheld : w.videoTestActive = true ∧ w.videoTestColor = 3
      · simp [hheld, dismissHeld] at hlt
      · simp only [hheld, if_false] at hlt ⊢
        cases k with
        | ctrlC => simp [stepKeyCore] at hlt
        | enter =>
          simp only [stepKeyCore] at hlt ⊢
          unfold stepEnter at hlt ⊢
          cases hstate : w.state <;> simp only [hstate] at hlt ⊢ <;>
            first
            | exact absurd hlt (lt_irrefl _)
            | simp
        | char c =>
          simp only [stepKeyCore] at hlt
          unfold stepChar at hlt
          by_cases hcq : c = 'q'
          · simp [hcq] at hlt
          · simp only [hcq, if_false] at hlt
            by_cases hcn : c = 'n' ∧ w.state = GState.askVideoOk
            · simp [hcn] at hlt
            · simp only [hcn, if_false] at hlt
              by_cases hcr : c = 'r' ∧ w.state = GState.serialError
              · simp [hcr] at hlt
              · simp only [hcr, if_false] at hlt
                by_cases hce : c = 'e' ∧ w.state = GState.serialError
                · simp [hce] at hlt
                · simp only [hce, if_false] at hlt
                  by_cases has : w.state = GState.askSerial
                  · simp [has] at hlt
                  · simp [has] at hlt
    | collectOk info raw =>
      by_cases hp : w.pendingCollect = true
      · simp only [hp, if_true, Option.some.injEq] at hs
        subst hs; simp at hlt
      · simp [hp] at hs
    | collectErr msg =>
      by_cases hp : w.pendingCollect = true
      · simp only [hp, if_true, Option.some.injEq] at hs
        subst hs; simp at hlt
      · simp [hp] at hs
    | tick elapsed =>
      by_cases ha : w.videoTestActive = true
      · simp only [ha, if_true, Option.some.injEq] at hs
        subst hs; simp at hlt
      · simp only [ha, if_false, Bool.false_eq_true, Option.some.injEq] at hs
        subst hs; simp at hlt
    | checkDone =>
      cases hpc : w.pendingCheck with
      | none => simp [hpc] at hs
      | some pr =>
        obtain ⟨en, sys⟩ := pr
        simp only [hpc] at hs
        unfold checkSerialNumberCmd at hs
        by_cases heq : en = sys
        · rw [if_pos heq] at hs
          simp only [Option.some.injEq] at hs
          subst hs; simp at hlt
        · rw [if_neg heq] at hs
          simp only [Option.some.injEq] at hs
          subst hs; simp at hlt
    | logOk path =>
      by_cases hp : w.pendingLog.isSome
      · simp only [hp, if_true, Option.some.injEq] at hs
        subst hs; simp at hlt
      · simp [hp] at hs
    | logErr msg =>
      by_cases hp : w.pendingLog.isSome
      · simp only [hp, if_true, Option.some.injEq] at hs
        subst hs; simp at hlt
      · simp [hp] at hs
    | powerDone =>
      by_cases hp : w.pendingPower.isSome
      · simp only [hp, if_true, Option.some.injEq] at hs
        subst hs; simp at hlt
      · simp [hp] at hs

/-! ### Concrete sessions used as witnesses and counterexamples -/

/-- The snapshot delivered in the example sessions. -/
def infoSN42 : SystemInfo := { serialNumber := "SN-42" }

/-- Events of a session that reaches stateSerialError: inventory collected,
video test run to the held pattern, pattern dismissed, test confirmed,
serial "W" entered and checked against "SN-42". -/
def evsToSerialError : List Ev :=
  [ Ev.collectOk infoSN42 "RAW-DMI",
    Ev.key Key.enter,
    Ev.tick 6,
    Ev.key (Key.char 'x'),
    Ev.key Key.enter,
    Ev.key (Key.char 'W'),
    Ev.key Key.enter,
    Ev.checkDone ]

def wSerialErr : World :=
  { state := GState.serialError, sysInfo := infoSN42, textValue := "W",
    userSerial := "W", dmidecodeRaw := "RAW-DMI", logFilePath := none,
    videoTestActive := false, videoTestColor := 3, testPassed := true,
    serialMatched := false, err := none, quit := false, pendingCollect := false,
    pendingCheck := none, pendingLog := none, pendingPower := none,
    logsIssued := 0, mismatchEver := true }

/-- Continuation that retries with the matching serial "SN-42". -/
def evsToSuccess : List Ev :=
  evsToSerialError ++
  [ Ev.key Key.enter,
    Ev.key (Key.char 'S'), Ev.key (Key.char 'N'), Ev.key (Key.char '-'),
    Ev.key (Key.char '4'), Ev.key (Key.char '2'),
    Ev.key Key.enter,
    Ev.checkDone ]

/-- The session just before the retried serial check completes. -/
def wChecking2 : World :=
  { state := GState.checkSerial, sysInfo := infoSN42, textValue := "SN-42",
    userSerial := "SN-42", dmidecodeRaw := "RAW-DMI", logFilePath := none,
    videoTestActive := false, videoTestColor := 3, testPassed := true,
    serialMatched := false, err := none, quit := false, pendingCollect := false,
    pendingCheck := some ("SN-42", "SN-42"), pendingLog := none,
    pendingPower := none, logsIssued := 0, mismatchEver := true }

def wSuccess : World :=
  { wChecking2 with state := GState.serialSuccess, serialMatched := true,
                    pendingCheck := none }

def pLogs : LogParams :=
  { info := infoSN42, dmidecodeRaw := "RAW-DMI", testPassed := true, serialMatched := true }

def wLogs : World :=
  { wSuccess with state := GState.createLogs, pendingLog := some pLogs, logsIssued := 1 }

/-- Session showing the held SMPTE pattern (elapsed 6 seconds). -/
def evsHeld : List Ev :=
  [ Ev.collectOk infoSN42 "RAW-DMI", Ev.key Key.enter, Ev.tick 6 ]

def wHeld : World :=
  { state := GState.videoTest, sysInfo := infoSN42, textValue := "",
    userSerial := "", dmidecodeRaw := "RAW-DMI", logFilePath := none,
    videoTestActive := true, videoTestColor := 3, testPassed := false,
    serialMatched := false, err := none, quit := false, pendingCollect := false,
    pendingCheck := none, pendingLog := none, pendingPower := none,
    logsIssued := 0, mismatchEver := false }

def wDismiss : World :=
  { wHeld with videoTestActive := false, state := GState.askVideoOk }

/-- Session in stateSerialError right after the operator pressed r. -/
def wReboot : World := { wSerialErr with pendingPower := some rebootCommand }

def wAfterPower : World := { wReboot with pendingPower := none }

def evsToReboot : List Ev := evsToSerialError ++ [Ev.key (Key.char 'r')]

/-- Session whose inventory collection failed. -/
def wCollectFailed : World :=
  { err := some "inventory", quit := true, pendingCollect := false }

/-- Session whose system serial contains a lowercase q, stopped at the
serial-entry prompt. -/
def evsQSerial : List Ev :=
  [ Ev.collectOk { serialNumber := "Qq7" } "RAWQ", Ev.key Key.enter, Ev.tick 6,
    Ev.key (Key.char 'x'), Ev.key Key.enter ]

def wQSerial : World :=
  { state := GState.askSerial, sysInfo := { serialNumber := "Qq7" }, textValue := "",
    userSerial := "", dmidecodeRaw := "RAWQ", logFilePath := none,
    videoTestActive := false, videoTestColor := 3, testPassed := true,
    serialMatched := false, err := none, quit := false, pendingCollect := false,
    pendingCheck := none, pendingLog := none, pendingPower := none,
    logsIssued := 0, mismatchEver := false }

/-! ### Claims -/

/-- Claim C1, counterexample: in the Fyne variant (src/main.go 1252-1286) a
log file IS written by a verification attempt whose entered serial does not
match the system serial - `checkSN` calls `createLogFile()` in the mismatch
branch as well, so "no log file is written by that verification attempt" is
false for the repository. -/
theorem c1_counterexample :
    (checkSN "WRONG" "SN-42").serialNumberVerified = false ∧
    (checkSN "WRONG" "SN-42").logFileWritten = true := by decide

/-- Claim C1, amended to the bubbletea TUI variant of src/main.go: the log
emitter is invoked at most once per session, only by the enter keypress in
stateSerialSuccess (the serial-confirmed state) moving into stateCreateLogs,
and a session sitting in stateSerialError has never invoked it. -/
theorem c1_log_emitter_once (w : World) (hw : Reachable w) (e : Ev) (w' : World)
    (hs : step w e = some w') :
    w.logsIssued ≤ 1 ∧
    (w.state = GState.serialError → w.logsIssued = 0) ∧
    (w.logsIssued < w'.logsIssued →
      w.state = GState.serialSuccess ∧ e = Ev.key Key.enter ∧
      w'.state = GState.createLogs) := by
  have hi := inv_reachable hw
  refine ⟨hi.logs_le, ?_, fun hlt => log_increment_analysis hs hlt⟩
  intro hse
  rcases Nat.lt_or_ge w.logsIssued 1 with h | h
  · omega
  · exfalso
    have h1 : w.logsIssued = 1 := le_antisymm hi.logs_le h
    rcases hi.logs_iff.mp h1 with h2 | h2 <;> rw [hse] at h2 <;> cases h2

/-- Claim C1, witness: a full successful session, at the step that issues
the log command. -/
theorem c1_witness :
    Reachable wSuccess ∧ step wSuccess (Ev.key Key.enter) = some wLogs ∧
    (wSuccess.logsIssued ≤ 1 ∧
     (wSuccess.state = GState.serialError → wSuccess.logsIssued = 0) ∧
     (wSuccess.logsIssued < wLogs.logsIssued →
       wSuccess.state = GState.serialSuccess ∧
       Ev.key Key.enter = Ev.key Key.enter ∧
       wLogs.state = GState.createLogs)) := by
  have hr : Reachable wSuccess := reaches_of_runEvs evsToSuccess initWorld wSuccess (by decide)
  have hstep : step wSuccess (Ev.key Key.enter) = some wLogs := by decide
  exact ⟨hr, hstep, c1_log_emitter_once wSuccess hr (Ev.key Key.enter) wLogs hstep⟩

/-- Claim C2, counterexample: the part_000 variant runs the display test
with intervalSeconds = 2 and N = 4, yet its sequencer does not hold the
final sub-phase: at elapsed 7 the held pattern (index 3) is showing, and at
elapsed 8 the tick handler ends the test with no operator key press,
contradicting "remains there indefinitely until an operator key press; the
final pattern never auto-advances". -/
theorem c2_counterexample :
    (videoTick000 3 7 GState.videoTest).videoTestColor = 3 ∧
    (videoTick000 3 7 GState.videoTest).videoTestActive = true ∧
    (videoTick000 3 8 GState.videoTest).videoTestActive = false ∧
    (videoTick000 3 8 GState.videoTest).state = GState.askVideoOk := by decide

/-- Claim C2, amended: the main.go TUI sequencer satisfies the stated
contract - at a tick with truncated elapsed seconds below 6 the sub-phase is
floor(elapsed/2) mod 3, at 6 or more it is the final index 3, ticks never
leave index 3, and only a key press ends the held pattern; the part_000
sequencer instead uses floor(elapsed/2) mod 4 below 8 seconds and
auto-completes the test at 8 seconds without holding. -/
theorem c2_sequencer (c elapsed : Nat) (st : GState) (w : World) (k : Key) :
    (c ≠ 3 → elapsed < 6 → videoTickMain c elapsed = (elapsed / 2) % 3) ∧
    (6 ≤ elapsed → videoTickMain c elapsed = 3) ∧
    (videoTickMain 3 elapsed = 3) ∧
    (w.videoTestActive = true → w.videoTestColor = 3 →
      stepKey w k = dismissHeld w) ∧
    (elapsed < 8 →
      videoTick000 c elapsed st =
        { videoTestActive := true, videoTestColor := (elapsed / 2) % 4, state := st }) ∧
    (8 ≤ elapsed →
      videoTick000 c elapsed st =
        { videoTestActive := false, videoTestColor := c, state := GState.askVideoOk }) := by
  refine ⟨?_, ?_, ?_, ?_, ?_, ?_⟩
  · intro hc hlt
    simp [videoTickMain, hc, Nat.not_le.mpr hlt]
  · intro hge
    by_cases hc : c = 3
    · simp [videoTickMain, hc]
    · simp [videoTickMain, hc, hge]
  · simp [videoTickMain]
  · intro ha hc
    unfold stepKey
    simp [ha, hc]
  · intro hlt
    simp [videoTick000, Nat.not_le.mpr hlt]
  · intro hge
    simp [videoTick000, hge]

/-- Claim C2, witness: concrete evaluations of the sequencer contract, in
particular sub-phase 1 at truncated elapsed 2 (time T0+2.5s) and the held
index 3 at 7 seconds. -/
theorem c2_witness :
    videoTickMain 0 0 = (0 / 2) % 3 ∧
    videoTickMain 1 2 = (2 / 2) % 3 ∧
    videoTickMain 2 7 = 3 ∧
    videoTickMain 3 100 = 3 ∧
    stepKey wHeld (Key.char 'a') = dismissHeld wHeld ∧
    videoTick000 3 7 GState.videoTest =
      { videoTestActive := true, videoTestColor := (7 / 2) % 4, state := GState.videoTest } ∧
    videoTick000 3 8 GState.videoTest =
      { videoTestActive := false, videoTestColor := 3, state := GState.askVideoOk } := by
  refine ⟨(c2_sequencer 0 0 GState.init initWorld Key.enter).1 (by decide) (by decide),
          (c2_sequencer 1 2 GState.init initWorld Key.enter).1 (by decide) (by decide),
          (c2_sequencer 2 7 GState.init initWorld Key.enter).2.1 (by decide),
          (c2_sequencer 3 100 GState.init initWorld Key.enter).2.2.1,
          (c2_sequencer 0 0 GState.init wHeld (Key.char 'a')).2.2.2.1 rfl rfl,
          (c2_sequencer 3 7 GState.videoTest initWorld Key.enter).2.2.2.2.1 (by decide),
          (c2_sequencer 3 8 GState.videoTest initWorld Key.enter).2.2.2.2.2 (by decide)⟩

/-- Claim C3: the identity verifier `checkSerialNumberCmd` reports a match
exactly when the two strings are equal (character for character, hence
byte for byte for the UTF-8 strings Go compares), with no trimming, case
folding or partial matching; including the three stated examples. -/
theorem c3_verify :
    (∀ entered system : String,
      checkSerialNumberCmd entered system = SerialCheckMsg.matched ↔ entered = system) ∧
    (∀ entered system : String,
      checkSerialNumberCmd entered system = SerialCheckMsg.matched ↔ entered.data = system.data) ∧
    checkSerialNumberCmd "ABC123" "ABC123" = SerialCheckMsg.matched ∧
    checkSerialNumberCmd "abc123" "ABC123" = SerialCheckMsg.mismatch "abc123" "ABC123" ∧
    checkSerialNumberCmd "" "" = SerialCheckMsg.matched := by
  have hiff : ∀ entered system : String,
      checkSerialNumberCmd entered system = SerialCheckMsg.matched ↔ entered = system := by
    intro e s
    unfold checkSerialNumberCmd
    by_cases h : e = s
    · simp [h]
    · rw [if_neg h]
      simp [h]
  refine ⟨hiff, ?_, by decide, by decide, by decide⟩
  intro e s
  rw [hiff e s]
  exact ⟨fun h => by rw [h], fun h => by cases e; cases s; simp_all⟩

/-- Claim C4, counterexample: a session that reported a mismatch ("W"
against "SN-42") and then retried with the matching serial ends with
serialVerified = true, contradicting "the serialVerified flag is false for
the rest of the session, even if a later retry submits the matching
serial". -/
theorem c4_counterexample :
    runEvs initWorld evsToSuccess = some wSuccess ∧
    wSuccess.mismatchEver = true ∧ wSuccess.serialMatched = true := by decide

/-- Claim C4, amended: serialVerified records the most recent verification:
the completion of a serial check sets it to true exactly when the submitted
serial equals the system serial - also on a retry after an earlier reported
mismatch - and a mismatch completion sets it to false, moves the session to
stateSerialError and marks the mismatch. -/
theorem c4_most_recent (w : World) (en sys : String)
    (hp : w.pendingCheck = some (en, sys)) (w' : World)
    (hs : step w Ev.checkDone = some w') :
    (w'.serialMatched = true ↔ en = sys) ∧
    (en = sys → w'.state = GState.serialSuccess) ∧
    (en ≠ sys →
      w'.state = GState.serialError ∧ w'.serialMatched = false ∧
      w'.mismatchEver = true) := by
  unfold step at hs
  by_cases hq : w.quit = true
  · simp [hq] at hs
  · simp only [hq, if_false, Bool.false_eq_true] at hs
    simp only [hp] at hs
    unfold checkSerialNumberCmd at hs
    by_cases heq : en = sys
    · rw [if_pos heq] at hs
      simp only [Option.some.injEq] at hs
      subst hs
      simp [heq]
    · rw [if_neg heq] at hs
      simp only [Option.some.injEq] at hs
      subst hs
      simp [heq]

/-- Claim C4, witness: the retried check of the counterexample session,
completing with the matching serial. -/
theorem c4_witness :
    (wSuccess.serialMatched = true ↔ ("SN-42" : String) = "SN-42") ∧
    (("SN-42" : String) = "SN-42" → wSuccess.state = GState.serialSuccess) ∧
    (("SN-42" : String) ≠ "SN-42" →
      wSuccess.state = GState.serialError ∧ wSuccess.serialMatched = false ∧
      wSuccess.mismatchEver = true) :=
  c4_most_recent wChecking2 "SN-42" "SN-42" (by decide) wSuccess (by decide)

/-- Claim C5: selecting Retry (enter) in stateSerialError re-enters
stateAskSerial with the text input cleared to the empty string
(src/main.go 2440-2444), so no stale text leaks into the next attempt. -/
theorem c5_retry_clears (w : World) (hw : Reachable w)
    (hse : w.state = GState.serialError) (hq : w.quit = false) :
    step w (Ev.key Key.enter) =
      some { w with state := GState.askSerial, textValue := "" } := by
  have hi := inv_reachable hw
  have hact : w.videoTestActive = false := by
    cases hA : w.videoTestActive
    · rfl
    · have hvt := hi.active_iff.mp hA
      rw [hse] at hvt
      cases hvt
  unfold step stepKey stepKeyCore stepEnter
  simp [hq, hact, hse]

/-- Claim C5, witness: the concrete mismatch session retrying. -/
theorem c5_witness :
    Reachable wSerialErr ∧
    step wSerialErr (Ev.key Key.enter) =
      some { wSerialErr with state := GState.askSerial, textValue := "" } := by
  have hr : Reachable wSerialErr :=
    reaches_of_runEvs evsToSerialError initWorld wSerialErr (by decide)
  exact ⟨hr, c5_retry_clears wSerialErr hr rfl rfl⟩

/-- Claim C6: every log record emitted in a reachable session carries the
snapshot, the display-test outcome, the verification result, the capture
timestamp, the raw dmidecode output, and an entered-serial field equal to
the serial the operator submitted.  (The source fills that field from
`info.SerialNumber` (src/main.go 2364), but a log command is only issued
after an exact match, when the submitted serial equals the system one.) -/
theorem c6_log_record (w : World) (hw : Reachable w) (p : LogParams)
    (hp : w.pendingLog = some p) (t : String) :
    (logRecordOf p t).enteredSerialNumber = w.userSerial ∧
    (logRecordOf p t).systemSerialNumber = w.sysInfo.serialNumber ∧
    (logRecordOf p t).systemInfo = w.sysInfo ∧
    (logRecordOf p t).videoTestPassed = w.testPassed ∧
    (logRecordOf p t).serialNumberCheck = w.serialMatched ∧
    (logRecordOf p t).rawDmidecode = w.dmidecodeRaw ∧
    (logRecordOf p t).date = t := by
  have hi := inv_reachable hw
  obtain ⟨hstL, hinfo, hraw, htp, hsm⟩ := hi.log_inv p hp
  obtain ⟨huser, hmatched⟩ := hi.created_inv (Or.inl hstL)
  simp [logRecordOf, hinfo, hraw, htp, hsm, huser, hmatched]

/-- Claim C6, witness: the log command of the successful example session. -/
theorem c6_witness :
    (logRecordOf pLogs "20250101_000000").enteredSerialNumber = wLogs.userSerial ∧
    (logRecordOf pLogs "20250101_000000").systemSerialNumber = wLogs.sysInfo.serialNumber ∧
    (logRecordOf pLogs "20250101_000000").systemInfo = wLogs.sysInfo ∧
    (logRecordOf pLogs "20250101_000000").videoTestPassed = wLogs.testPassed ∧
    (logRecordOf pLogs "20250101_000000").serialNumberCheck = wLogs.serialMatched ∧
    (logRecordOf pLogs "20250101_000000").rawDmidecode = wLogs.dmidecodeRaw ∧
    (logRecordOf pLogs "20250101_000000").date = "20250101_000000" := by
  have hr : Reachable wLogs := by
    refine Relation.ReflTransGen.tail
      (reaches_of_runEvs evsToSuccess initWorld wSuccess (by decide)) ?_
    exact ⟨Ev.key Key.enter, by decide⟩
  exact c6_log_record wLogs hr pLogs (by decide) "20250101_000000"

/-- Claim C7, counterexample: pressing r in stateSerialError issues the
reboot command through `exec.Cmd.Run`, which WAITS for the command to exit
(src/main.go 2466); the wizard does not quit at that point, and even after
the command completes the delivered restartMsg leaves the session running
(Update has no case for it), so the process does not exit immediately. -/
theorem c7_counterexample :
    rebootCommand.waitsForExit = true ∧
    runEvs initWorld evsToReboot = some wReboot ∧
    wReboot.quit = false ∧
    step wReboot Ev.powerDone = some wAfterPower ∧
    wAfterPower.quit = false ∧ wAfterPower.state = GState.serialError := by decide

/-- Claim C7, amended: r and e in stateSerialError issue the OS power
command as a detached unit that waits for the command to complete
(`exec.Cmd.Run`); the completion message only clears the pending command and
the process does not exit on its own - it keeps running until the OS action
kills it or the operator quits. -/
theorem c7_power_commands (w : World) (hw : Reachable w)
    (hse : w.state = GState.serialError) (hq : w.quit = false) :
    step w (Ev.key (Key.char 'r')) = some { w with pendingPower := some rebootCommand } ∧
    step w (Ev.key (Key.char 'e')) = some { w with pendingPower := some poweroffCommand } ∧
    rebootCommand.waitsForExit = true ∧
    poweroffCommand.waitsForExit = true ∧
    (∀ v : World, v.quit = false → v.pendingPower.isSome = true →
      step v Ev.powerDone = some { v with pendingPower := none }) := by
  have hi := inv_reachable hw
  have hact : w.videoTestActive = false := by
    cases hA : w.videoTestActive
    · rfl
    · have hvt := hi.active_iff.mp hA
      rw [hse] at hvt
      cases hvt
  refine ⟨?_, ?_, rfl, rfl, ?_⟩
  · unfold step stepKey stepKeyCore stepChar
    simp [hq, hact, hse]
  · unfold step stepKey stepKeyCore stepChar
    simp [hq, hact, hse]
  · intro v hvq hvp
    unfold step
    simp [hvq, hvp]

/-- Claim C7, witness: the concrete mismatch session pressing r and e. -/
theorem c7_witness :
    step wSerialErr (Ev.key (Key.char 'r')) =
      some { wSerialErr with pendingPower := some rebootCommand } ∧
    step wSerialErr (Ev.key (Key.char 'e')) =
      some { wSerialErr with pendingPower := some poweroffCommand } ∧
    rebootCommand.waitsForExit = true ∧
    poweroffCommand.waitsForExit = true ∧
    (∀ v : World, v.quit = false → v.pendingPower.isSome = true →
      step v Ev.powerDone = some { v with pendingPower := none }) := by
  have hr : Reachable wSerialErr :=
    reaches_of_runEvs evsToSerialError initWorld wSerialErr (by decide)
  exact c7_power_commands wSerialErr hr rfl rfl

/-- Claim C8, counterexample: while the held final pattern is shown, the
quit keys are consumed by the any-key handler (src/main.go 2396-2401)
before the quit cases are reached: q and ctrl+c dismiss the pattern and the
session keeps running, so quitting is NOT possible in that state. -/
theorem c8_counterexample :
    runEvs initWorld evsHeld = some wHeld ∧
    wHeld.videoTestActive = true ∧ wHeld.videoTestColor = 3 ∧
    step wHeld (Ev.key (Key.char 'q')) = some wDismiss ∧
    step wHeld (Ev.key Key.ctrlC) = some wDismiss ∧
    wDismiss.quit = false := by decide

/-- Claim C8, amended: in every session state EXCEPT while the held final
pattern is displayed, q and ctrl+c quit the process immediately, changing
nothing in the session but the quit flag (so no further side effects). -/
theorem c8_quit_keys (w : World) (hq : w.quit = false)
    (hheld : ¬(w.videoTestActive = true ∧ w.videoTestColor = 3)) :
    step w (Ev.key Key.ctrlC) = some { w with quit := true } ∧
    step w (Ev.key (Key.char 'q')) = some { w with quit := true } := by
  unfold step stepKey stepKeyCore stepChar
  simp [hq, hheld]

/-- Claim C8, witness: quitting from the serial-entry prompt of the held
example session. -/
theorem c8_witness :
    step wQSerial (Ev.key Key.ctrlC) = some { wQSerial with quit := true } ∧
    step wQSerial (Ev.key (Key.char 'q')) = some { wQSerial with quit := true } :=
  c8_quit_keys wQSerial rfl (by decide)

/-- Claim C9, counterexample: an inventory-collection failure makes Update
store the error and quit (src/main.go 2487-2489); `tea.Program.Run` then
returns a nil error, and `main` (src/main.go 2976-3000) exits 0 - not
non-zero as claimed. -/
theorem c9_counterexample :
    runEvs initWorld [Ev.collectErr "inventory"] = some wCollectFailed ∧
    wCollectFailed.err = some "inventory" ∧ wCollectFailed.quit = true ∧
    exitCodeOfQuitSession true = 0 := by decide

/-- Claim C9, amended: the exit code is 0 on normal completion, on operator
quit, AND after inventory-collection or log-write failures (the failure
quits the event loop with the error only stored in the model); it is
non-zero exactly when elevated privileges are missing at startup or the
terminal program itself fails to run. -/
theorem c9_exit_codes (w : World) (e : String) (hp : w.pendingCollect = true)
    (hq : w.quit = false) :
    step w (Ev.collectErr e) =
      some { w with err := some e, quit := true, pendingCollect := false } ∧
    (w.pendingLog.isSome = true →
      step w (Ev.logErr e) =
        some { w with err := some e, quit := true, pendingLog := none }) ∧
    exitCodeOfQuitSession true = 0 ∧
    tuiMainExitCode false false = 1 ∧
    tuiMainExitCode false true = 1 ∧
    tuiMainExitCode true true = 1 ∧
    tuiMainExitCode true false = 0 := by
  refine ⟨?_, ?_, by decide, by decide, by decide, by decide, by decide⟩
  · unfold step
    simp [hq, hp]
  · intro hpl
    unfold step
    simp [hq, hpl]

/-- Claim C9, witness: a fresh session whose inventory collection fails. -/
theorem c9_witness :
    step initWorld (Ev.collectErr "inventory") =
      some { initWorld with err := some "inventory", quit := true, pendingCollect := false } ∧
    (initWorld.pendingLog.isSome = true →
      step initWorld (Ev.logErr "inventory") =
        some { initWorld with err := some "inventory", quit := true, pendingLog := none }) ∧
    exitCodeOfQuitSession true = 0 ∧
    tuiMainExitCode false false = 1 ∧
    tuiMainExitCode false true = 1 ∧
    tuiMainExitCode true true = 1 ∧
    tuiMainExitCode true false = 0 :=
  c9_exit_codes initWorld "inventory" rfl rfl

/-- Claim C10: in stateAskSerial a lowercase q quits instead of reaching the
text input (src/main.go 2403-2405 precede the component update at
2560-2569), the typed text of a reachable session never contains q, and
whenever the system serial contains a lowercase q the session can never
reach the serial-confirmed state, never sets serialVerified, and never
writes a log. -/
theorem c10_q_intercepted (w : World) (hw : Reachable w) :
    'q' ∉ w.textValue.data ∧
    (w.state = GState.askSerial → w.quit = false →
      step w (Ev.key (Key.char 'q')) = some { w with quit := true }) ∧
    ('q' ∈ w.sysInfo.serialNumber.data →
      w.state ≠ GState.serialSuccess ∧ w.serialMatched = false ∧
      w.logsIssued = 0) := by
  have hi := inv_reachable hw
  refine ⟨hi.text_q, ?_, ?_⟩
  · intro hsAsk hq
    have hact : w.videoTestActive = false := by
      cases hA : w.videoTestActive
      · rfl
      · have hvt := hi.active_iff.mp hA
        rw [hsAsk] at hvt
        cases hvt
    unfold step stepKey stepKeyCore stepChar
    simp [hq, hact]
  · intro hqSer
    have husq : ∀ hus : w.userSerial = w.sysInfo.serialNumber, False := by
      intro hus
      rw [← hus] at hqSer
      exact hi.user_q hqSer
    have hsm : w.serialMatched = false := by
      cases hS : w.serialMatched
      · rfl
      · exfalso
        rcases hi.matched_states hS with h | h | h
        · exact husq (hi.success_inv h).1
        · exact husq (hi.created_inv (Or.inl h)).1
        · exact husq (hi.created_inv (Or.inr h)).1
    refine ⟨?_, hsm, ?_⟩
    · intro h
      exact husq (hi.success_inv h).1
    · rcases Nat.lt_or_ge w.logsIssued 1 with h | h
      · omega
      · exfalso
        have h1 : w.logsIssued = 1 := le_antisymm hi.logs_le h
        exact husq (hi.created_inv (hi.logs_iff.mp h1)).1

/-- Claim C10, witness: a session whose system serial is "Qq7". -/
theorem c10_witness :
    'q' ∉ wQSerial.textValue.data ∧
    step wQSerial (Ev.key (Key.char 'q')) = some { wQSerial with quit := true } ∧
    (wQSerial.state ≠ GState.serialSuccess ∧ wQSerial.serialMatched = false ∧
      wQSerial.logsIssued = 0) := by
  have hr : Reachable wQSerial :=
    reaches_of_runEvs evsQSerial initWorld wQSerial (by decide)
  obtain ⟨h1, h2, h3⟩ := c10_q_intercepted wQSerial hr
  exact ⟨h1, h2 rfl rfl, h3 (by decide)⟩

end Troubadour
